import Mathlib

/-!
Shallow embedding of the legal-google-search-agent HTTP adapter
(`src/main.py` and `src/legal_search_Agent/agent.py`).

The adapter wires a conversational agent to REST endpoints.  The embedding
models the data the handlers manipulate (events yielded by the Runner,
sessions held by the in-memory Session Store, request/response bodies) and
each handler as a pure function.  Nondeterministic inputs of a handler —
the freshly generated UUID and the Runner's event stream — are passed as
explicit parameters.  Each handler also returns the trace of Session-Store
and Runner operations it performed, in order, so that claims about which
collaborator calls happen (and in which order) are statements about the
trace.
-/

set_option linter.unusedVariables false

namespace LegalSearchAgent

/-- The constant application name passed to every Session-Store and Runner
call in `src/main.py` (`app_name="legal_search_Agent"`). -/
def appName : String := "legal_search_Agent"

/-- The default model identifier the chat handler initialises
`model_version` with (`src/main.py` line 133). -/
def defaultModel : String := "gemini-2.5-flash"

/-- A content part of an event.  `text` is `none` when the part has no
(truthy-checked) `text` attribute value; the Python code skips a part whose
`text` is absent, `None`, or empty (`if hasattr(part, 'text') and part.text`). -/
structure Part where
  text : Option String
deriving Repr, DecidableEq

/-- The `content` of an event.  `parts` is `none` when the content object
has no `parts` attribute (`if hasattr(event.content, 'parts')`). -/
structure Content where
  parts : Option (List Part)
deriving Repr, DecidableEq

/-- One event yielded by the Runner.  `content` is `none` when the event has
no (truthy) `content`; `model_version` is `none` when the event carries no
`model_version` attribute at all, and `some v` when the attribute is present
with value `v` — where `v` itself is an `Option String` because the attribute
may hold Python `None`. -/
structure Event where
  content : Option Content
  model_version : Option (Option String)
deriving Repr, DecidableEq

/-- A session as held by the in-memory Session Store, keyed by
(app_name, user_id, id). -/
structure Session where
  id : String
  app_name : String
  user_id : String
deriving Repr, DecidableEq

/-- Whether a stored session matches the lookup key. -/
def sessionKeyMatches (s : Session) (app user sid : String) : Bool :=
  s.app_name == app && s.user_id == user && s.id == sid

/-- Session-Store `get_session`: `none` when no session with the key exists. -/
def storeGet (st : List Session) (app user sid : String) : Option Session :=
  st.find? (fun s => sessionKeyMatches s app user sid)

/-- Session-Store `create_session`: honours the caller-supplied id and
returns the created session. -/
def storeCreate (st : List Session) (app user sid : String) :
    List Session × Session :=
  let s : Session := { id := sid, app_name := app, user_id := user }
  (st ++ [s], s)

/-- Session-Store `delete_session`: removes the keyed session when present,
succeeds regardless. -/
def storeDelete (st : List Session) (app user sid : String) : List Session :=
  st.filter (fun s => !(sessionKeyMatches s app user sid))

/-- Session-Store `list_sessions`: all sessions of one (app, user). -/
def storeList (st : List Session) (app user : String) : List Session :=
  st.filter (fun s => s.app_name == app && s.user_id == user)

/-- A validated `ChatRequest` body (pydantic model in `src/main.py`):
`user_id` defaulted, `session_id` optional, `message` required. -/
structure ChatRequest where
  user_id : String
  session_id : Option String
  message : String
deriving Repr, DecidableEq

/-- The `ChatResponse` body (`src/main.py` lines 57-60): all three fields,
`model` included, are required strings (`model: str = Field(...)`). -/
structure ChatResponse where
  session_id : String
  response : String
  model : String
deriving Repr, DecidableEq

/-- The `SessionInfo` body returned by `create_session`. -/
structure SessionInfo where
  session_id : String
  user_id : String
  app_name : String
deriving Repr, DecidableEq

/-- The body returned by `delete_session`. -/
structure DeleteAck where
  status : String
  session_id : String
deriving Repr, DecidableEq

/-- The body returned by `list_sessions`. -/
structure SessionList where
  user_id : String
  sessions : List String
deriving Repr, DecidableEq

/-- Raw (pre-validation) JSON body of a chat request: every field may be
absent. -/
structure RawChatRequest where
  user_id : Option String
  session_id : Option String
  message : Option String
deriving Repr, DecidableEq

/-- Raw (pre-validation) JSON body of a create-session request. -/
structure RawCreateSessionRequest where
  user_id : Option String
deriving Repr, DecidableEq

/-- A validated `CreateSessionRequest` body. -/
structure CreateSessionRequest where
  user_id : String
deriving Repr, DecidableEq

/-- Pydantic validation of `ChatRequest`: `message` is a required field
(`Field(...)`), so a body missing it is rejected; `user_id` defaults to
`"default_user"`; `session_id` defaults to `None`.  No further constraint
is declared on `message` — any present string, empty included, validates. -/
def validateChatRequest (r : RawChatRequest) : Option ChatRequest :=
  match r.message with
  | none => none
  | some m =>
    some { user_id := r.user_id.getD "default_user",
           session_id := r.session_id,
           message := m }

/-- Pydantic validation of `CreateSessionRequest`: `user_id` defaults to
`"default_user"`; nothing is required. -/
def validateCreateSessionRequest (r : RawCreateSessionRequest) :
    CreateSessionRequest :=
  { user_id := r.user_id.getD "default_user" }

/-- One Session-Store or Runner operation performed by a handler. -/
inductive Op where
  | createSession (app user sid : String)
  | getSession (app user sid : String)
  | listSessions (app user : String)
  | deleteSession (app user sid : String)
  | runAgent (user sid msg : String)
deriving Repr, DecidableEq

/-- Per-part step of the chat reduction loop (`src/main.py` lines 142-144):
append `part.text` to the buffer only when the attribute is present and
truthy (non-`None`, non-empty). -/
def stepPart (s : String) (p : Part) : String :=
  match p.text with
  | some t => if t = "" then s else s ++ t
  | none => s

/-- Per-event step of the chat reduction loop (`src/main.py` lines 140-146):
fold the event's parts into the text buffer, and overwrite the last-known
model version whenever the `model_version` attribute is present — its value,
`None` included, is taken unconditionally. -/
def stepEvent (acc : String × Option String) (e : Event) :
    String × Option String :=
  let text :=
    match e.content with
    | some c =>
      match c.parts with
      | some ps => ps.foldl stepPart acc.1
      | none => acc.1
    | none => acc.1
  let mv :=
    match e.model_version with
    | some v => v
    | none => acc.2
  (text, mv)

/-- The whole event-reduction loop of the chat handler: running text buffer
starting empty, model version starting at the configured default. -/
def reduceEvents (events : List Event) : String × Option String :=
  events.foldl stepEvent ("", some defaultModel)

/-- Construction plus pydantic validation of the `ChatResponse` body
(`src/main.py` lines 57-60 and 148-152): `model` is a required `str`, so
when the reduction loop leaves the model version as Python `None` the
construction raises a pydantic ValidationError — surfaced by the framework
as a 500 server error — instead of producing a response. -/
def mkChatResponse (sid text : String) (mv : Option String) :
    Except (Nat × String) ChatResponse :=
  match mv with
  | some m => Except.ok { session_id := sid, response := text, model := m }
  | none => Except.error (500, "Internal Server Error")

/-- The outcome of one chat request: the post-request store, the ordered
trace of collaborator operations, and either an HTTP error (status code and
detail) or the response body. -/
structure ChatOutcome where
  store : List Session
  trace : List Op
  result : Except (Nat × String) ChatResponse
deriving Repr

/-- The `/chat` handler (`src/main.py` lines 98-152).  `freshId` is the UUID
that `uuid.uuid4()` would generate; `events` is the stream `runner.run_async`
would yield.  A falsy `session_id` (absent or empty, `if not session_id`)
triggers lazy session creation; an explicit one is looked up and a missing
session raises 404 before the Runner is invoked. -/
def chatHandler (store : List Session) (req : ChatRequest) (freshId : String)
    (events : List Event) : ChatOutcome :=
  if req.session_id.getD "" = "" then
    { store := (storeCreate store appName req.user_id freshId).1,
      trace := [Op.createSession appName req.user_id freshId,
                Op.runAgent req.user_id freshId req.message],
      result := mkChatResponse freshId (reduceEvents events).1
        (reduceEvents events).2 }
  else
    match storeGet store appName req.user_id (req.session_id.getD "") with
    | none =>
      { store := store,
        trace := [Op.getSession appName req.user_id (req.session_id.getD "")],
        result := Except.error (404, "Session not found") }
    | some _ =>
      { store := store,
        trace := [Op.getSession appName req.user_id (req.session_id.getD ""),
                  Op.runAgent req.user_id (req.session_id.getD "") req.message],
        result := mkChatResponse (req.session_id.getD "")
          (reduceEvents events).1 (reduceEvents events).2 }

/-- The `/sessions` (POST) handler (`src/main.py` lines 78-95): create a
session under the fresh UUID and echo the store-assigned id back. -/
def createSessionHandler (store : List Session) (req : CreateSessionRequest)
    (freshId : String) : List Session × List Op × SessionInfo :=
  ((storeCreate store appName req.user_id freshId).1,
   [Op.createSession appName req.user_id freshId],
   { session_id := (storeCreate store appName req.user_id freshId).2.id,
     user_id := req.user_id,
     app_name := appName })

/-- The `/sessions/\x7buser_id\x7d` (GET) handler (`src/main.py` lines
155-164): project stored sessions to their ids. -/
def listSessionsHandler (store : List Session) (user : String) :
    List Op × SessionList :=
  ([Op.listSessions appName user],
   { user_id := user,
     sessions := (storeList store appName user).map Session.id })

/-- The `/sessions/\x7buser_id\x7d/\x7bsession_id\x7d` (DELETE) handler
(`src/main.py` lines 167-177): delete unconditionally and always return the
same acknowledgment. -/
def deleteSessionHandler (store : List Session) (user sid : String) :
    List Session × List Op × DeleteAck :=
  (storeDelete store appName user sid,
   [Op.deleteSession appName user sid],
   { status := "deleted", session_id := sid })

/-- The `__main__` block (`src/main.py` lines 180-181): the (host, port)
pair handed to `uvicorn.run` as a function of the process environment.  The
source hard-codes `host="127.0.0.1", port=8000` and never consults the
environment. -/
def serverBind (env : String → Option String) : String × Nat :=
  ("127.0.0.1", 8000)

/-- Spec-side definition of the text fragment `T_i` an event contributes,
following the spec's words: the concatenation of the text of its content
parts (possibly empty). -/
def specEventText (e : Event) : String :=
  match e.content with
  | some c =>
    match c.parts with
    | some ps => ps.foldl (fun s p => s ++ p.text.getD "") ""
    | none => ""
  | none => ""

/-- Concatenation of a list of strings, in order. -/
def concatAll : List String → String
  | [] => ""
  | s :: ss => s ++ concatAll ss

/-- The model version of the last event that carries the `model_version`
attribute (`some v` — `v` possibly `none`), or `none` when no event carries
the attribute. -/
def lastSpecifiedVersion : List Event → Option (Option String)
  | [] => none
  | e :: es =>
    match lastSpecifiedVersion es with
    | some v => some v
    | none => e.model_version

/-- Whether an operation that addresses the Session Store uses the constant
application name; Runner invocations carry no app name. -/
def opAppOk (op : Op) : Bool :=
  match op with
  | .createSession app _ _ => app == appName
  | .getSession app _ _ => app == appName
  | .listSessions app _ => app == appName
  | .deleteSession app _ _ => app == appName
  | .runAgent _ _ _ => true

/-! ## Reduction lemmas -/

/-- Folding the per-part step from any buffer appends exactly the parts'
(default-empty) texts: skipping absent, `None` or empty texts does not
change the concatenation. -/
theorem foldl_stepPart_eq (ps : List Part) (s : String) :
    ps.foldl stepPart s = s ++ concatAll (ps.map fun p => p.text.getD "") := by
  induction ps generalizing s with
  | nil => simp [concatAll, String.append_empty]
  | cons p ps ih =>
    simp only [List.foldl, List.map, concatAll]
    rw [ih]
    cases hp : p.text with
    | none => simp [stepPart, hp, String.empty_append]
    | some t =>
      by_cases ht : t = ""
      · subst ht
        simp [stepPart, hp, String.empty_append]
      · simp [stepPart, hp, ht, String.append_assoc]

/-- The spec-side fold over parts from any buffer likewise appends the
concatenation of the parts' texts. -/
theorem foldl_specPart_eq (ps : List Part) (s : String) :
    ps.foldl (fun a p => a ++ p.text.getD "") s =
      s ++ concatAll (ps.map fun p => p.text.getD "") := by
  induction ps generalizing s with
  | nil => simp [concatAll, String.append_empty]
  | cons p ps ih =>
    simp only [List.foldl, List.map, concatAll]
    rw [ih, String.append_assoc]

/-- Each event advances the text buffer by exactly its spec-side fragment. -/
theorem stepEvent_fst (acc : String × Option String) (e : Event) :
    (stepEvent acc e).1 = acc.1 ++ specEventText e := by
  cases hc : e.content with
  | none => simp [stepEvent, specEventText, hc, String.append_empty]
  | some c =>
    cases hp : c.parts with
    | none => simp [stepEvent, specEventText, hc, hp, String.append_empty]
    | some ps =>
      simp [stepEvent, specEventText, hc, hp, foldl_stepPart_eq,
        foldl_specPart_eq, String.empty_append]

/-- The text component of the event fold, from any accumulator, is the
accumulator followed by the ordered concatenation of the events' fragments. -/
theorem foldl_stepEvent_fst (events : List Event) (acc : String × Option String) :
    (events.foldl stepEvent acc).1 = acc.1 ++ concatAll (events.map specEventText) := by
  induction events generalizing acc with
  | nil => simp [concatAll, String.append_empty]
  | cons e es ih =>
    simp only [List.foldl, List.map, concatAll]
    rw [ih, stepEvent_fst, String.append_assoc]

/-- The model component of the event fold is the last specified version when
one exists, and the starting value otherwise. -/
theorem foldl_stepEvent_snd (events : List Event) (acc : String × Option String) :
    (events.foldl stepEvent acc).2 =
      match lastSpecifiedVersion events with
      | some v => v
      | none => acc.2 := by
  induction events generalizing acc with
  | nil => rfl
  | cons e es ih =>
    simp only [List.foldl, lastSpecifiedVersion]
    rw [ih]
    cases hl : lastSpecifiedVersion es with
    | some v => rfl
    | none =>
      cases hm : e.model_version with
      | some v => simp [stepEvent, hm]
      | none => simp [stepEvent, hm]

/-- The aggregated response text of the reduction loop is the ordered
concatenation of the events' fragments. -/
theorem reduceEvents_fst (events : List Event) :
    (reduceEvents events).1 = concatAll (events.map specEventText) := by
  rw [reduceEvents, foldl_stepEvent_fst]
  exact String.empty_append _

/-- The model component of the reduction loop is the last event's specified
version, defaulting to the configured model identifier. -/
theorem reduceEvents_snd (events : List Event) :
    (reduceEvents events).2 = (lastSpecifiedVersion events).getD (some defaultModel) := by
  rw [reduceEvents, foldl_stepEvent_snd]
  cases lastSpecifiedVersion events <;> rfl

/-- Any successful chat outcome carries exactly the reduced response text,
and its model field is the reduced model version (which must therefore have
been an actual string, not None). -/
theorem chat_ok_result (store : List Session) (req : ChatRequest)
    (freshId : String) (events : List Event) (resp : ChatResponse)
    (h : (chatHandler store req freshId events).result = Except.ok resp) :
    resp.response = (reduceEvents events).1 ∧
    some resp.model = (reduceEvents events).2 := by
  by_cases hb : req.session_id.getD "" = ""
  · simp only [chatHandler, if_pos hb] at h
    cases hm : (reduceEvents events).2 with
    | some m =>
      simp only [mkChatResponse, hm, Except.ok.injEq] at h
      subst h
      exact ⟨rfl, rfl⟩
    | none =>
      simp only [mkChatResponse, hm] at h
      exact (Except.noConfusion h)
  · cases hg : storeGet store appName req.user_id (req.session_id.getD "") with
    | none =>
      simp only [chatHandler, if_neg hb, hg] at h
      exact (Except.noConfusion h)
    | some s =>
      simp only [chatHandler, if_neg hb, hg] at h
      cases hm : (reduceEvents events).2 with
      | some m =>
        simp only [mkChatResponse, hm, Except.ok.injEq] at h
        subst h
        exact ⟨rfl, rfl⟩
      | none =>
        simp only [mkChatResponse, hm] at h
        exact (Except.noConfusion h)

/-! ## Claims -/

/-- Claim C1: for every chat request that reaches the event-reduction loop
(i.e. whose outcome is a successful response) and every finite event
sequence, the `response` field equals the order-preserving concatenation of
the events' text fragments T1 || T2 || ... || TN, where Ti is the
concatenation of the text of event i's content parts (possibly empty). -/
theorem chat_response_is_ordered_concat (store : List Session)
    (req : ChatRequest) (freshId : String) (events : List Event)
    (resp : ChatResponse)
    (h : (chatHandler store req freshId events).result = Except.ok resp) :
    resp.response = concatAll (events.map specEventText) := by
  rw [(chat_ok_result store req freshId events resp h).1, reduceEvents_fst]

/-- Concrete instance of C1: two events contributing "Hello " and "world"
(with an absent and an empty part skipped in between) aggregate to
"Hello world". -/
theorem chat_response_is_ordered_concat_witness :
    (ChatResponse.mk "fid" "Hello world" "gemini-2.5-pro").response =
      concatAll
        (([Event.mk (some (Content.mk (some [Part.mk (some "Hello "),
            Part.mk none, Part.mk (some "")]))) none,
           Event.mk (some (Content.mk (some [Part.mk (some "world")])))
            (some (some "gemini-2.5-pro"))]).map specEventText) :=
  chat_response_is_ordered_concat []
    (ChatRequest.mk "u" none "hi") "fid"
    [Event.mk (some (Content.mk (some [Part.mk (some "Hello "),
       Part.mk none, Part.mk (some "")]))) none,
     Event.mk (some (Content.mk (some [Part.mk (some "world")])))
      (some (some "gemini-2.5-pro"))]
    (ChatResponse.mk "fid" "Hello world" "gemini-2.5-pro") rfl

/-- Claim C2: the `model` field of a successful chat response equals the
model_version of the last event that specifies one (carries the attribute),
and the configured default model identifier when no event does. -/
theorem chat_model_is_last_specified (store : List Session)
    (req : ChatRequest) (freshId : String) (events : List Event)
    (resp : ChatResponse)
    (h : (chatHandler store req freshId events).result = Except.ok resp) :
    some resp.model = (lastSpecifiedVersion events).getD (some defaultModel) := by
  rw [← reduceEvents_snd]
  exact (chat_ok_result store req freshId events resp h).2

/-- Concrete instance of C2: of two version-carrying events the later one
wins. -/
theorem chat_model_is_last_specified_witness :
    some (ChatResponse.mk "fid" "" "gemini-2.5-pro").model =
      (lastSpecifiedVersion
        [Event.mk none (some (some "gemini-2.5-flash")),
         Event.mk none (some (some "gemini-2.5-pro")),
         Event.mk none none]).getD (some defaultModel) :=
  chat_model_is_last_specified [] (ChatRequest.mk "u" none "hi") "fid"
    [Event.mk none (some (some "gemini-2.5-flash")),
     Event.mk none (some (some "gemini-2.5-pro")),
     Event.mk none none]
    (ChatResponse.mk "fid" "" "gemini-2.5-pro") rfl

/-- Claim C3: a chat request carrying an explicit (non-empty) session_id
that the store does not resolve produces exactly a 404 outcome: the store is
unchanged and the only collaborator operation performed is the lookup — the
Runner is never invoked and no session is created or deleted. -/
theorem chat_unknown_session_404 (store : List Session) (req : ChatRequest)
    (freshId : String) (events : List Event) (sid : String)
    (hsid : req.session_id = some sid) (hne : sid ≠ "")
    (hget : storeGet store appName req.user_id sid = none) :
    chatHandler store req freshId events =
      { store := store,
        trace := [Op.getSession appName req.user_id sid],
        result := Except.error (404, "Session not found") } := by
  have hg : req.session_id.getD "" = sid := by rw [hsid]; rfl
  simp only [chatHandler, hg, if_neg hne, hget]

/-- Concrete instance of C3: an empty store rejects session id "s1" with a
404 and performs only the lookup. -/
theorem chat_unknown_session_404_witness :
    chatHandler [] (ChatRequest.mk "u" (some "s1") "hi") "fid" [] =
      { store := [],
        trace := [Op.getSession appName "u" "s1"],
        result := Except.error (404, "Session not found") } :=
  chat_unknown_session_404 [] (ChatRequest.mk "u" (some "s1") "hi") "fid" []
    "s1" rfl (by decide) rfl

/-- Claim C4: a chat request with an omitted (or empty) session_id creates a
session under the freshly generated id in the store before the Runner is
invoked (the trace lists the creation first), and the response's session_id
is that fresh id. -/
theorem chat_fresh_session_created (store : List Session) (req : ChatRequest)
    (freshId : String) (events : List Event)
    (h : req.session_id.getD "" = "") :
    chatHandler store req freshId events =
      { store := (storeCreate store appName req.user_id freshId).1,
        trace := [Op.createSession appName req.user_id freshId,
                  Op.runAgent req.user_id freshId req.message],
        result := mkChatResponse freshId (reduceEvents events).1
          (reduceEvents events).2 } := by
  simp only [chatHandler, if_pos h]

/-- Concrete instance of C4: a request without a session_id creates and uses
the fresh id. -/
theorem chat_fresh_session_created_witness :
    chatHandler [] (ChatRequest.mk "u" none "hi") "fid" [] =
      { store := (storeCreate [] appName "u" "fid").1,
        trace := [Op.createSession appName "u" "fid",
                  Op.runAgent "u" "fid" "hi"],
        result := mkChatResponse "fid" (reduceEvents []).1
          (reduceEvents []).2 } :=
  chat_fresh_session_created [] (ChatRequest.mk "u" none "hi") "fid" [] rfl

/-- Counterexample to claim C5: a chat body whose message is the empty
string passes validation (it is not rejected) and the resulting request is
forwarded to the Runner — the trace contains a Runner invocation carrying
the empty message. -/
theorem empty_message_passes_validation :
    validateChatRequest (RawChatRequest.mk none none (some "")) =
      some (ChatRequest.mk "default_user" none "") ∧
    (chatHandler [] (ChatRequest.mk "default_user" none "") "fid" []).trace =
      [Op.createSession appName "default_user" "fid",
       Op.runAgent "default_user" "fid" ""] :=
  ⟨rfl, rfl⟩

/-- Claim C5 as amended: validation rejects a chat body exactly when the
message field is missing; any present message string — the empty string
included — validates and is passed through unchanged. -/
theorem message_required_but_emptiness_not_checked (u s : Option String)
    (m : String) :
    validateChatRequest (RawChatRequest.mk u s none) = none ∧
    validateChatRequest (RawChatRequest.mk u s (some m)) =
      some (ChatRequest.mk (u.getD "default_user") s m) :=
  ⟨rfl, rfl⟩

/-- Claim C6: for every store state, user_id and session_id — whether or not
the session exists — the delete-session handler returns the same
acknowledgment, status "deleted" with the given session_id. -/
theorem delete_session_always_acks (store : List Session) (user sid : String) :
    (deleteSessionHandler store user sid).2.2 =
      { status := "deleted", session_id := sid } :=
  rfl

/-- Counterexample to claim C7: with PORT set to "9000" in the environment,
the `__main__` block still binds ("127.0.0.1", 8000) — neither the claimed
port selection nor the claimed all-interfaces host holds. -/
theorem port_env_ignored :
    serverBind (fun k => if k = "PORT" then some "9000" else none) =
      ("127.0.0.1", 8000) ∧
    ("127.0.0.1" : String) ≠ "0.0.0.0" ∧ (8000 : Nat) ≠ 9000 :=
  ⟨rfl, by decide, by decide⟩

/-- Claim C7 as amended: when started as the main module the server always
binds host 127.0.0.1 and port 8000, whatever the environment — the PORT
value is ignored and the bind is loopback-only, not all interfaces. -/
theorem server_binds_localhost_8000 (env : String → Option String) :
    serverBind env = ("127.0.0.1", 8000) :=
  rfl

/-- Claim C8: create-session calls the store's create with the freshly
generated id and returns session_id = that id, user_id defaulted to
"default_user" when not supplied, and app_name = "legal_search_Agent". -/
theorem create_session_contract (store : List Session)
    (raw : RawCreateSessionRequest) (freshId : String) :
    (createSessionHandler store (validateCreateSessionRequest raw) freshId).2.2 =
      { session_id := freshId,
        user_id := raw.user_id.getD "default_user",
        app_name := "legal_search_Agent" } ∧
    (createSessionHandler store (validateCreateSessionRequest raw) freshId).2.1 =
      [Op.createSession "legal_search_Agent" (raw.user_id.getD "default_user")
        freshId] ∧
    (createSessionHandler store (validateCreateSessionRequest raw) freshId).1 =
      store ++ [{ id := freshId,
                  app_name := "legal_search_Agent",
                  user_id := raw.user_id.getD "default_user" }] :=
  ⟨rfl, rfl, rfl⟩

/-- Counterexample to claim C9: for a stream whose single event carries the
model_version attribute with value None, the reduction ends with version
None and the chat produces a 500 server error — the `ChatResponse`
construction fails pydantic validation of the required `model: str` field —
not a chat response whose model field is None. -/
theorem model_none_yields_server_error :
    lastSpecifiedVersion [Event.mk none (some none)] = some none ∧
    (chatHandler [] (ChatRequest.mk "u" none "hi") "fid"
      [Event.mk none (some none)]).result =
      Except.error (500, "Internal Server Error") :=
  ⟨rfl, rfl⟩

/-- Claim C9 as amended: the reduction's model_version check tests only
attribute presence, never value.  A falsy string value such as the empty
string overwrites the last-known version, so a successful response's model
is that empty string rather than the configured default; when the last
carried value is None the response construction fails pydantic validation
of the required `model: str` field and no chat response is produced at
all. -/
theorem chat_model_value_unchecked (store : List Session) (req : ChatRequest)
    (freshId : String) (events : List Event) :
    (lastSpecifiedVersion events = some (some "") →
      ∀ resp, (chatHandler store req freshId events).result = Except.ok resp →
        resp.model = "" ∧ resp.model ≠ defaultModel) ∧
    (lastSpecifiedVersion events = some none →
      ∀ resp,
        (chatHandler store req freshId events).result ≠ Except.ok resp) := by
  constructor
  · intro hv resp h
    have h2 := (chat_ok_result store req freshId events resp h).2
    rw [reduceEvents_snd, hv] at h2
    have hm : resp.model = "" := by simpa using h2
    refine ⟨hm, ?_⟩
    rw [hm]
    decide
  · intro hv resp h
    have h2 := (chat_ok_result store req freshId events resp h).2
    rw [reduceEvents_snd, hv] at h2
    simp at h2

/-- Concrete instances of the amended C9: a last-carried empty-string
version ends up verbatim in the response model, and a last-carried None
version makes an ok outcome impossible. -/
theorem chat_model_value_unchecked_witness :
    ((ChatResponse.mk "fid" "" "").model = "" ∧
      (ChatResponse.mk "fid" "" "").model ≠ defaultModel) ∧
    (chatHandler [] (ChatRequest.mk "u" none "hi") "fid"
        [Event.mk none (some none)]).result ≠
      Except.ok (ChatResponse.mk "fid" "" defaultModel) :=
  ⟨(chat_model_value_unchecked [] (ChatRequest.mk "u" none "hi") "fid"
      [Event.mk none (some (some ""))]).1 rfl
      (ChatResponse.mk "fid" "" "") rfl,
   (chat_model_value_unchecked [] (ChatRequest.mk "u" none "hi") "fid"
      [Event.mk none (some none)]).2 rfl
      (ChatResponse.mk "fid" "" defaultModel)⟩

/-- Claim C10: every Session-Store operation any handler performs — create
(explicit and lazy), get, list and delete — addresses the constant app name
"legal_search_Agent"; the traces of all four handlers satisfy the
per-operation check. -/
theorem all_store_ops_use_constant_app_name (store : List Session)
    (req : ChatRequest) (freshId rid user sid : String)
    (events : List Event) (raw : RawCreateSessionRequest) :
    ((chatHandler store req freshId events).trace.all opAppOk = true) ∧
    ((createSessionHandler store (validateCreateSessionRequest raw) rid).2.1.all
      opAppOk = true) ∧
    ((listSessionsHandler store user).1.all opAppOk = true) ∧
    ((deleteSessionHandler store user sid).2.1.all opAppOk = true) := by
  refine ⟨?_, by simp [createSessionHandler, opAppOk], by simp [listSessionsHandler, opAppOk],
    by simp [deleteSessionHandler, opAppOk]⟩
  by_cases hb : req.session_id.getD "" = ""
  · simp [chatHandler, hb, opAppOk]
  · cases hg : storeGet store appName req.user_id (req.session_id.getD "") with
    | none => simp [chatHandler, hb, hg, opAppOk]
    | some s => simp [chatHandler, hb, hg, opAppOk]

end LegalSearchAgent
